import Mathlib

/-!
Shallow embedding of the QuerySmith data-access layer (Python) in Lean 4,
together with theorems settling the frozen claims about its specification.

Conventions used throughout:
* Python scalar values are modelled by the inductive `Value`; the Python
  constant `None` is `Value.vnone`.
* A Python function that can raise is modelled as returning `Except String α`
  (the `String` carries the exception message; every exception raised by this
  library is a Python `ValueError` unless noted otherwise).
* Wall-clock time (`time.time()`) is passed explicitly as an integer number of
  seconds.
-/

set_option autoImplicit false

/-- A Python runtime value as it appears in column cells, parameters and cache
entries: `None`, an integer, a string, a boolean, or a list. -/
inductive Value : Type where
  | vnone : Value
  | vint : Int → Value
  | vstr : String → Value
  | vbool : Bool → Value
  | vlist : List Value → Value
deriving Repr

mutual

/-- Decidable equality on `Value`, written by hand because the automatic
deriving does not handle the nested `List Value` field. -/
def Value.decEq : (a b : Value) → Decidable (a = b)
  | .vnone, .vnone => isTrue rfl
  | .vnone, .vint _ => isFalse (fun h => Value.noConfusion h)
  | .vnone, .vstr _ => isFalse (fun h => Value.noConfusion h)
  | .vnone, .vbool _ => isFalse (fun h => Value.noConfusion h)
  | .vnone, .vlist _ => isFalse (fun h => Value.noConfusion h)
  | .vint _, .vnone => isFalse (fun h => Value.noConfusion h)
  | .vint m, .vint n =>
      if h : m = n then isTrue (by rw [h]) else isFalse (fun hh => h (by cases hh; rfl))
  | .vint _, .vstr _ => isFalse (fun h => Value.noConfusion h)
  | .vint _, .vbool _ => isFalse (fun h => Value.noConfusion h)
  | .vint _, .vlist _ => isFalse (fun h => Value.noConfusion h)
  | .vstr _, .vnone => isFalse (fun h => Value.noConfusion h)
  | .vstr _, .vint _ => isFalse (fun h => Value.noConfusion h)
  | .vstr s, .vstr t =>
      if h : s = t then isTrue (by rw [h]) else isFalse (fun hh => h (by cases hh; rfl))
  | .vstr _, .vbool _ => isFalse (fun h => Value.noConfusion h)
  | .vstr _, .vlist _ => isFalse (fun h => Value.noConfusion h)
  | .vbool _, .vnone => isFalse (fun h => Value.noConfusion h)
  | .vbool _, .vint _ => isFalse (fun h => Value.noConfusion h)
  | .vbool _, .vstr _ => isFalse (fun h => Value.noConfusion h)
  | .vbool b, .vbool c =>
      if h : b = c then isTrue (by rw [h]) else isFalse (fun hh => h (by cases hh; rfl))
  | .vbool _, .vlist _ => isFalse (fun h => Value.noConfusion h)
  | .vlist _, .vnone => isFalse (fun h => Value.noConfusion h)
  | .vlist _, .vint _ => isFalse (fun h => Value.noConfusion h)
  | .vlist _, .vstr _ => isFalse (fun h => Value.noConfusion h)
  | .vlist _, .vbool _ => isFalse (fun h => Value.noConfusion h)
  | .vlist xs, .vlist ys =>
      match Value.decEqList xs ys with
      | isTrue h => isTrue (by rw [h])
      | isFalse h => isFalse (fun hh => h (by cases hh; rfl))

/-- Decidable equality on lists of `Value`. -/
def Value.decEqList : (xs ys : List Value) → Decidable (xs = ys)
  | [], [] => isTrue rfl
  | [], _ :: _ => isFalse (fun h => List.noConfusion h)
  | _ :: _, [] => isFalse (fun h => List.noConfusion h)
  | x :: xs, y :: ys =>
      match Value.decEq x y with
      | isFalse h1 => isFalse (fun hh => h1 (by cases hh; rfl))
      | isTrue h1 =>
          match Value.decEqList xs ys with
          | isTrue h2 => isTrue (by rw [h1, h2])
          | isFalse h2 => isFalse (fun hh => h2 (by cases hh; rfl))

end

instance : DecidableEq Value := Value.decEq

/-- The abstract column type enumeration `DataType` from
`QuerySmith/data_types.py`. -/
inductive DataType : Type where
  | TEXT | CHAR | VARCHAR
  | INTEGER | SMALLINT | BIGINT | REAL | DECIMAL | SERIAL
  | TIMESTAMP | DATE | TIME | INTERVAL
  | BOOLEAN
  | BLOB | BYTEA
  | JSON | JSONB
deriving DecidableEq, Repr

/-- The `value` attribute of each `DataType` enum member (its declaration
string in `data_types.py`). -/
def DataType.value : DataType → String
  | .TEXT => "TEXT"
  | .CHAR => "CHAR"
  | .VARCHAR => "VARCHAR"
  | .INTEGER => "INTEGER"
  | .SMALLINT => "SMALLINT"
  | .BIGINT => "BIGINT"
  | .REAL => "REAL"
  | .DECIMAL => "DECIMAL"
  | .SERIAL => "SERIAL"
  | .TIMESTAMP => "TIMESTAMP"
  | .DATE => "DATE"
  | .TIME => "TIME"
  | .INTERVAL => "INTERVAL"
  | .BOOLEAN => "BOOLEAN"
  | .BLOB => "BLOB"
  | .BYTEA => "BYTEA"
  | .JSON => "JSON"
  | .JSONB => "JSONB"

/-- Python's `length or d` idiom used in `_get_postgresql_type`: `None` and
`0` are falsy, so both fall back to the default `d`. -/
def py_len_or (length : Option Nat) (d : Nat) : Nat :=
  match length with
  | some n => if n = 0 then d else n
  | none => d

/-- The lookup table built inside `DataType._get_postgresql_type`
(`data_types.py`, lines 62-81).  The f-strings for `CHAR` and `VARCHAR` are
evaluated with `length or 1` resp. `length or 255` before the length check
fires, exactly as in the source. -/
def DataType.pg_type_of (dt : DataType) (length : Option Nat) : String :=
  match dt with
  | .TEXT => "TEXT"
  | .CHAR => "CHAR(" ++ toString (py_len_or length 1) ++ ")"
  | .VARCHAR => "VARCHAR(" ++ toString (py_len_or length 255) ++ ")"
  | .INTEGER => "INTEGER"
  | .SMALLINT => "SMALLINT"
  | .BIGINT => "BIGINT"
  | .REAL => "REAL"
  | .DECIMAL => "DECIMAL"
  | .SERIAL => "SERIAL"
  | .TIMESTAMP => "TIMESTAMP"
  | .DATE => "DATE"
  | .TIME => "TIME"
  | .INTERVAL => "INTERVAL"
  | .BOOLEAN => "BOOLEAN"
  | .BLOB => "BYTEA"
  | .BYTEA => "BYTEA"
  | .JSON => "JSON"
  | .JSONB => "JSONB"

/-- `DataType._get_postgresql_type` (`data_types.py`, lines 60-89): look the
type up in the table, then raise `ValueError` when the type is `CHAR` or
`VARCHAR` and `length is None`, otherwise return the SQL type. -/
def DataType.get_postgresql_type (dt : DataType) (length : Option Nat) :
    Except String String :=
  let sql_type := dt.pg_type_of length
  if (dt = .CHAR ∨ dt = .VARCHAR) ∧ length = none then
    .error ("Length must be specified for " ++ dt.value)
  else
    .ok sql_type

/-- `DataType._get_sqlite_type` (`data_types.py`, lines 91-114): a pure table
lookup; the `length` argument is accepted but never used, and no error is ever
raised. -/
def DataType.get_sqlite_type (dt : DataType) (_length : Option Nat) : String :=
  match dt with
  | .TEXT => "TEXT"
  | .CHAR => "TEXT"
  | .VARCHAR => "TEXT"
  | .INTEGER => "INTEGER"
  | .SMALLINT => "INTEGER"
  | .BIGINT => "INTEGER"
  | .REAL => "REAL"
  | .DECIMAL => "REAL"
  | .SERIAL => "INTEGER"
  | .TIMESTAMP => "TEXT"
  | .DATE => "TEXT"
  | .TIME => "TEXT"
  | .INTERVAL => "TEXT"
  | .BOOLEAN => "INTEGER"
  | .BLOB => "BLOB"
  | .BYTEA => "BLOB"
  | .JSON => "TEXT"
  | .JSONB => "TEXT"

/-- `DataType.get_sql_type` (`data_types.py`, lines 45-58): dispatch on the
dialect string; any dialect other than `"postgresql"` or `"sqlite"` raises
`ValueError`. -/
def DataType.get_sql_type (dt : DataType) (db_type : String)
    (length : Option Nat) : Except String String :=
  if db_type = "postgresql" then
    dt.get_postgresql_type length
  else if db_type = "sqlite" then
    .ok (dt.get_sqlite_type length)
  else
    .error ("Unsupported database type: " ++ db_type)

/-- `DataTypeFactory.get_supported_types` (`data_types.py`, lines 134-156),
restricted to its successful branches; an unsupported dialect raises. -/
def get_supported_types (db_type : String) : Except String (List DataType) :=
  if db_type = "postgresql" then
    .ok [.TEXT, .CHAR, .VARCHAR,
         .INTEGER, .SMALLINT, .BIGINT,
         .REAL, .DECIMAL, .SERIAL,
         .TIMESTAMP, .DATE, .TIME, .INTERVAL,
         .BOOLEAN, .BYTEA, .JSON, .JSONB]
  else if db_type = "sqlite" then
    .ok [.TEXT, .INTEGER, .REAL,
         .TIMESTAMP, .DATE, .TIME,
         .BOOLEAN, .BLOB, .JSON]
  else
    .error ("Unsupported database type: " ++ db_type)

/-- The supported set as a plain list (empty for unsupported dialects). -/
def supported_types_list (db_type : String) : List DataType :=
  match get_supported_types db_type with
  | .ok l => l
  | .error _ => []

mutual

/-- A model instance as `BaseModel` (`base_model.py`) sees it: its table name
and the ordered list of columns returned by `get_list_attributes`. -/
inductive BaseModel : Type where
  | mk (table : String) (columns : List ColumnModel)

/-- The `ColumnModel` dataclass of `base_model.py` (lines 16-25): cell value,
column name, concrete SQL type string, primary-key and unique flags, an
optional reference to another model, and an optional declared length. -/
inductive ColumnModel : Type where
  | mk (data : Value) (row_name : String) (data_type : String)
       (primary_key : Bool) (unique : Bool)
       (references_table : Option BaseModel) (len_data_type : Option Nat)

end

/-- The model's table name. -/
def BaseModel.table : BaseModel → String
  | .mk t _ => t

/-- `BaseModel.get_list_attributes` (`base_model.py`, lines 84-86): the
declared columns in declaration order. -/
def BaseModel.get_list_attributes : BaseModel → List ColumnModel
  | .mk _ cs => cs

/-- The cell value of a column. -/
def ColumnModel.data : ColumnModel → Value
  | .mk d _ _ _ _ _ _ => d

/-- The column name. -/
def ColumnModel.row_name : ColumnModel → String
  | .mk _ n _ _ _ _ _ => n

/-- The concrete SQL type string of a column. -/
def ColumnModel.data_type : ColumnModel → String
  | .mk _ _ t _ _ _ _ => t

/-- The primary-key flag of a column. -/
def ColumnModel.primary_key : ColumnModel → Bool
  | .mk _ _ _ p _ _ _ => p

/-- The unique flag of a column. -/
def ColumnModel.unique : ColumnModel → Bool
  | .mk _ _ _ _ u _ _ => u

/-- The optional referenced model of a column. -/
def ColumnModel.references_table : ColumnModel → Option BaseModel
  | .mk _ _ _ _ _ r _ => r

mutual

/-- `json.dumps` restricted to the `Value` fragment (Python's default
separator is a comma followed by a space). -/
def json_dumps : Value → String
  | .vnone => "null"
  | .vint n => toString n
  | .vstr s => "\"" ++ s ++ "\""
  | .vbool true => "true"
  | .vbool false => "false"
  | .vlist xs => "[" ++ String.intercalate ", " (json_dumps_list xs) ++ "]"

/-- `json.dumps` applied to each element of a list. -/
def json_dumps_list : List Value → List String
  | [] => []
  | x :: xs => json_dumps x :: json_dumps_list xs

end

/-- `BaseModel._prepare_data_for_save` (`base_model.py`, lines 205-217): for
`BLOB`, `JSON` and `JSONB` columns, a non-`None` container value is serialized
with `json.dumps`; everything else passes through unchanged. -/
def prepare_data_for_save (row : ColumnModel) : Value :=
  let data := row.data
  if (row.data_type = "BLOB" ∨ row.data_type = "JSON" ∨ row.data_type = "JSONB")
      ∧ data ≠ .vnone then
    match data with
    | .vlist xs => .vstr (json_dumps (.vlist xs))
    | _ => data
  else
    data

/-- The accumulator of the column loop in `BaseModel.save` (`base_model.py`,
lines 181-196). -/
structure SaveScan where
  id_row : Option String
  id_data : Value
  rows_name : List String
  rows_data : List Value

/-- One iteration of the column loop of `BaseModel.save`. -/
def save_step (acc : SaveScan) (row : ColumnModel) : SaveScan :=
  { id_row := if row.primary_key then some row.row_name else acc.id_row
    id_data := if row.primary_key then row.data else acc.id_data
    rows_name := acc.rows_name ++ [row.row_name]
    rows_data := acc.rows_data ++ [prepare_data_for_save row] }

/-- The column loop of `BaseModel.save`, iterated front to back over the
remaining columns. -/
def save_scan_loop (acc : SaveScan) : List ColumnModel → SaveScan
  | [] => acc
  | row :: rest => save_scan_loop (save_step acc row) rest

/-- The column loop of `BaseModel.save`: every column - the primary key
included - contributes its name to `rows_name` and its prepared value to
`rows_data`; each primary-key column additionally overwrites `id_row` and
`id_data`. -/
def save_scan (cols : List ColumnModel) : SaveScan :=
  save_scan_loop { id_row := none, id_data := .vnone, rows_name := [], rows_data := [] } cols

/-- The `$1, $2, ...` placeholder list built in
`AsyncPGBaseClass._insert_data`. -/
def pg_placeholders (n : Nat) : String :=
  String.intercalate ", " ((List.range n).map (fun i => "$" ++ toString (i + 1)))

/-- `AsyncPGBaseClass._insert_data` (`postgre/base_model.py`, lines 156-162):
the INSERT statement text and its positional parameters. -/
def pg_insert_data (table : String) (rows_name : List String)
    (rows_data : List Value) : String × List Value :=
  ("INSERT INTO " ++ table ++ " (" ++ String.intercalate ", " rows_name ++
     ") VALUES (" ++ pg_placeholders rows_data.length ++ ") RETURNING id",
   rows_data)

/-- `AsyncPGBaseClass._update_data` (`postgre/base_model.py`, lines 164-172):
the UPDATE statement text and its positional parameters. -/
def pg_update_data (table : String) (rows_name : List String)
    (rows_data : List Value) (id_row : String) (id_data : Value) :
    String × List Value :=
  let set_clause := String.intercalate ", "
    (rows_name.enum.map (fun p => p.2 ++ " = $" ++ toString (p.1 + 1)))
  ("UPDATE " ++ table ++ " SET " ++ set_clause ++ " WHERE " ++ id_row ++
     " = $" ++ toString (rows_data.length + 1),
   rows_data ++ [id_data])

/-- The statement chosen by `BaseModel.save`. -/
inductive SaveStmt : Type where
  | insert (stmt : String × List Value)
  | update (stmt : String × List Value)

/-- `BaseModel.save` on a PostgreSQL model (`base_model.py`, lines 177-203
composed with `postgre/base_model.py`): scan the columns, then INSERT when
`id_data is None` and UPDATE otherwise.  (When no primary-key column carries a
value, Python's `id_row` is `None` and would render as the string `"None"`;
that combination cannot reach the UPDATE branch.) -/
def pg_save (table : String) (cols : List ColumnModel) : SaveStmt :=
  let s := save_scan cols
  if s.id_data = .vnone then
    .insert (pg_insert_data table s.rows_name s.rows_data)
  else
    .update (pg_update_data table s.rows_name s.rows_data (s.id_row.getD "None") s.id_data)

/-- The first primary-key column of a list, as found by the `next(...)`
generator expressions in `delete` and by the loop in `get_schema_on_create`. -/
def find_primary_key (cols : List ColumnModel) : Option ColumnModel :=
  cols.find? (fun c => c.primary_key)

/-- One entry of the `row_definitions` list in `BaseModel.get_schema_on_create`
(`base_model.py`, line 105): name, type, and the joined constraint list.  When
the column has no constraints the Python f-string leaves a trailing space,
which is reproduced here. -/
def column_def (c : ColumnModel) : String :=
  let constraints :=
    (if c.primary_key then ["PRIMARY KEY"] else []) ++
    (if c.unique then ["UNIQUE"] else [])
  c.row_name ++ " " ++ c.data_type ++ " " ++ String.intercalate " " constraints

/-- The column loop of `BaseModel.get_schema_on_create` (`base_model.py`,
lines 96-116): collect one definition per column in declaration order and one
FOREIGN KEY clause per referencing column; raise `ValueError` at the first
referencing column whose referenced table has no primary-key column. -/
def schema_walk : List ColumnModel → Except String (List String × List String)
  | [] => .ok ([], [])
  | c :: cs =>
    match c.references_table with
    | none =>
      match schema_walk cs with
      | .ok (ds, fs) => .ok (column_def c :: ds, fs)
      | .error e => .error e
    | some rt =>
      match find_primary_key rt.get_list_attributes with
      | some pk =>
        match schema_walk cs with
        | .ok (ds, fs) =>
          .ok (column_def c :: ds,
               ("FOREIGN KEY (" ++ c.row_name ++ ") REFERENCES " ++ rt.table ++
                  "(" ++ pk.row_name ++ ")") :: fs)
        | .error e => .error e
      | none => .error "The reference table does not have a primary key!"

/-- Final assembly of the DDL string in `get_schema_on_create` (lines 118-123):
header with the table name, the comma-joined column definitions, then the
comma-joined FOREIGN KEY clauses when present. -/
def assemble_schema (table : String) (ds fs : List String) : String :=
  "CREATE TABLE " ++ table ++ " (\n" ++ String.intercalate ",\n" ds ++
    (if fs.isEmpty then "" else ",\n" ++ String.intercalate ",\n" fs) ++ "\n);"

/-- `BaseModel.get_schema_on_create` (`base_model.py`, lines 88-123). -/
def get_schema_on_create (m : BaseModel) : Except String String :=
  match schema_walk m.get_list_attributes with
  | .ok (ds, fs) => .ok (assemble_schema m.table ds fs)
  | .error e => .error e

/-- The FOREIGN KEY clause a single column contributes, if any: used to state
the shape of the successful schema. -/
def fk_of (c : ColumnModel) : Option String :=
  match c.references_table with
  | none => none
  | some rt =>
    match find_primary_key rt.get_list_attributes with
    | some pk =>
      some ("FOREIGN KEY (" ++ c.row_name ++ ") REFERENCES " ++ rt.table ++
              "(" ++ pk.row_name ++ ")")
    | none => none

/-- The `AND`-joined equality conditions with `$n` placeholders built by the
PostgreSQL predicate operations (`postgre/base_model.py`, lines 204-213 and
293-302): `param_index` starts at 1 and follows call order. -/
def pg_where_conditions (kwargs : List (String × Value)) : List String :=
  kwargs.enum.map (fun p => p.2.1 ++ " = $" ++ toString (p.1 + 1))

/-- `AsyncPGBaseClass.load_one_custom` (`postgre/base_model.py`, lines
199-216), statement-building part: zero conditions raise `ValueError`,
otherwise a SELECT with an `AND`-joined WHERE clause is built. -/
def pg_load_one_custom (table : String) (kwargs : List (String × Value)) :
    Except String (String × List Value) :=
  if kwargs.isEmpty then
    .error "Необходимо указать хотя бы одно условие"
  else
    .ok ("SELECT * FROM " ++ table ++ " WHERE " ++
           String.intercalate " AND " (pg_where_conditions kwargs),
         kwargs.map (fun p => p.2))

/-- `AsyncPGBaseClass.get_all_by` (`postgre/base_model.py`, lines 285-305),
statement-building part: zero conditions fall back to `get_all`, which runs an
unconditioned `SELECT * FROM table`. -/
def pg_get_all_by (table : String) (kwargs : List (String × Value)) :
    Except String (String × List Value) :=
  if kwargs.isEmpty then
    .ok ("SELECT * FROM " ++ table, [])
  else
    .ok ("SELECT * FROM " ++ table ++ " WHERE " ++
           String.intercalate " AND " (pg_where_conditions kwargs),
         kwargs.map (fun p => p.2))

/-- The `?`-placeholder conditions of the SQLite predicate operations
(`sqlite/base_model.py`, lines 172-177 and 265-270). -/
def sqlite_where_conditions (kwargs : List (String × Value)) : List String :=
  kwargs.map (fun p => p.1 ++ " = ?")

/-- `AsyncSQLiteClass.load_one_custom` (`sqlite/base_model.py`, lines
167-178), statement-building part. -/
def sqlite_load_one_custom (table : String) (kwargs : List (String × Value)) :
    Except String (String × List Value) :=
  if kwargs.isEmpty then
    .error "Необходимо указать хотя бы одно условие"
  else
    .ok ("SELECT * FROM " ++ table ++ " WHERE " ++
           String.intercalate " AND " (sqlite_where_conditions kwargs),
         kwargs.map (fun p => p.2))

/-- `AsyncSQLiteClass.get_all_by` (`sqlite/base_model.py`, lines 259-271),
statement-building part: zero conditions fall back to `get_all`. -/
def sqlite_get_all_by (table : String) (kwargs : List (String × Value)) :
    Except String (String × List Value) :=
  if kwargs.isEmpty then
    .ok ("SELECT * FROM " ++ table, [])
  else
    .ok ("SELECT * FROM " ++ table ++ " WHERE " ++
           String.intercalate " AND " (sqlite_where_conditions kwargs),
         kwargs.map (fun p => p.2))

/-- `AsyncPGBaseClass.delete` (`postgre/base_model.py`, lines 238-246): find
the first primary-key column; emit a one-condition DELETE only when the found
name is truthy (non-empty) and the value is not `None`; otherwise emit no
statement at all. -/
def pg_delete (table : String) (cols : List ColumnModel) :
    Option (String × List Value) :=
  let id_row := (find_primary_key cols).map (fun c => c.row_name)
  let id_data := (find_primary_key cols).map (fun c => c.data)
  match id_row, id_data with
  | some r, some d =>
    if r ≠ "" ∧ d ≠ .vnone then
      some ("DELETE FROM " ++ table ++ " WHERE " ++ r ++ " = $1", [d])
    else
      none
  | _, _ => none

/-- `AsyncSQLiteClass.delete` (`sqlite/base_model.py`, lines 200-208): same
logic with a `?` placeholder. -/
def sqlite_delete (table : String) (cols : List ColumnModel) :
    Option (String × List Value) :=
  let id_row := (find_primary_key cols).map (fun c => c.row_name)
  let id_data := (find_primary_key cols).map (fun c => c.data)
  match id_row, id_data with
  | some r, some d =>
    if r ≠ "" ∧ d ≠ .vnone then
      some ("DELETE FROM " ++ table ++ " WHERE " ++ r ++ " = ?", [d])
    else
      none
  | _, _ => none

/-- How `json.loads` can fail on the modelled values. -/
inductive JsonErr : Type where
  | decodeError
  | typeError
deriving DecidableEq, Repr

/-- Read a non-empty all-digit character list as a natural number. -/
def digits_to_nat (cs : List Char) : Option Nat :=
  if cs.isEmpty then none
  else
    cs.foldl
      (fun acc c =>
        match acc with
        | none => none
        | some n => if c.isDigit then some (n * 10 + (c.toNat - '0'.toNat)) else none)
      (some 0)

/-- Read a JSON integer literal (optional leading minus, then digits). -/
def str_to_int (s : String) : Option Int :=
  match s.data with
  | '-' :: rest => (digits_to_nat rest).map (fun n => -(n : Int))
  | cs => (digits_to_nat cs).map (fun n => (n : Int))

/-- `json.loads` restricted to the scalar JSON literals that can be stored in
a `Value`: `null`, `true`, `false` and integer literals decode; any other
string raises `json.JSONDecodeError`; a non-string argument raises
`TypeError`. -/
def json_loads (v : Value) : Except JsonErr Value :=
  match v with
  | .vstr s =>
    if s = "null" then .ok .vnone
    else if s = "true" then .ok (.vbool true)
    else if s = "false" then .ok (.vbool false)
    else
      match str_to_int s with
      | some n => .ok (.vint n)
      | none => .error .decodeError
  | _ => .error .typeError

/-- The per-cell decoding of `AsyncSQLiteClass.load_one` (`sqlite/base_model.py`,
lines 150-159): only columns whose `data_type` is the string `"BLOB"` and whose
raw value is not `None` are JSON-decoded (a `JSONDecodeError` keeps the raw
value; a `TypeError` from a non-string propagates); every other value - boolean
0/1 integers included - passes through unchanged. -/
def sqlite_decode_cell (c : ColumnModel) (v : Value) : Except String Value :=
  if c.data_type = "BLOB" ∧ v ≠ .vnone then
    match json_loads v with
    | .ok w => .ok w
    | .error .decodeError => .ok v
    | .error .typeError => .error "TypeError"
  else
    .ok v

/-- The row-decoding loop of `AsyncSQLiteClass.load_one`: columns are paired
with raw values positionally (`value = result[idx]`); a row shorter than the
column list raises `IndexError`; surplus raw values are ignored.  The returned
association list models the insertion-ordered `data` dict. -/
def sqlite_decode_row : List ColumnModel → List Value →
    Except String (List (String × Value))
  | [], _ => .ok []
  | _ :: _, [] => .error "IndexError"
  | c :: cs, v :: vs =>
    match sqlite_decode_cell c v with
    | .ok w =>
      match sqlite_decode_row cs vs with
      | .ok rest => .ok ((c.row_name, w) :: rest)
      | .error e => .error e
    | .error e => .error e

/-- Driver-level failures as the `except Exception` handlers see them: a
transport-level error or a semantic SQL error.  The handlers in this codebase
never distinguish the two. -/
inductive PgError : Type where
  | transport
  | semantic
deriving DecidableEq, Repr

/-- Observable outcome of one `_execute` call: the returned or raised result,
the number of times a statement was submitted to the driver, and whether the
connection is still open afterwards. -/
structure ExecTrace : Type where
  result : Except PgError Value
  attempts : Nat
  conn_open : Bool
deriving Repr

/-- `AsyncPGBaseClass._execute` (`postgre/base_model.py`, lines 74-93):
connect, submit the statement once; with a fetch flag set, submit it a second
time through `fetchrow`/`fetch`.  Any exception - transport or semantic alike -
closes the connection and propagates immediately; there is no retry.
`driver n` is the driver's response to the n-th submission. -/
def pg_execute_model (connect_result : Except PgError Unit)
    (driver : Nat → Except PgError Value) (fetch_one fetch_all : Bool) :
    ExecTrace :=
  match connect_result with
  | .error e => { result := .error e, attempts := 0, conn_open := false }
  | .ok _ =>
    match driver 0 with
    | .error e => { result := .error e, attempts := 1, conn_open := false }
    | .ok r =>
      if fetch_one then
        match driver 1 with
        | .ok v => { result := .ok v, attempts := 2, conn_open := true }
        | .error e => { result := .error e, attempts := 2, conn_open := false }
      else if fetch_all then
        match driver 1 with
        | .ok v => { result := .ok v, attempts := 2, conn_open := true }
        | .error e => { result := .error e, attempts := 2, conn_open := false }
      else
        { result := .ok r, attempts := 1, conn_open := true }

/-- `AsyncSQLiteClass._execute` (`sqlite/base_model.py`, lines 59-70): open a
fresh connection, submit the statement once, commit, and close in `finally`.
Any exception propagates immediately; there is no retry. -/
def sqlite_execute_model (connect_result : Except PgError Unit)
    (exec_result : Except PgError Value)
    (commit_result : Except PgError Unit) : ExecTrace :=
  match connect_result with
  | .error e => { result := .error e, attempts := 0, conn_open := false }
  | .ok _ =>
    match exec_result with
    | .error e => { result := .error e, attempts := 1, conn_open := false }
    | .ok r =>
      match commit_result with
      | .error e => { result := .error e, attempts := 1, conn_open := false }
      | .ok _ => { result := .ok r, attempts := 1, conn_open := false }

/-- Observable outcome of one `_connect` call: `ok (some c)` means the loop
ended with connection `c` assigned, `ok none` means the loop body never ran
(`max_retries = 0`), `error e` means the exception `e` was re-raised.
`attempts` counts calls to the driver's connect, `sleeps` counts
`asyncio.sleep(retry_delay)` calls. -/
structure ConnectTrace : Type where
  outcome : Except PgError (Option Nat)
  attempts : Nat
  sleeps : Nat
deriving Repr

/-- The retry loop of `AsyncPGBaseClass._connect` (`postgre/base_model.py`,
lines 65-72), starting at `attempt` with `fuel` iterations left: on success
break; on failure re-raise when `attempt == max_retries - 1`, otherwise sleep
and continue. `f attempt` is the driver's response to that attempt. -/
def pg_connect_go (f : Nat → Except PgError Nat) (max_retries : Nat) :
    Nat → Nat → ConnectTrace
  | _, 0 => { outcome := .ok none, attempts := 0, sleeps := 0 }
  | attempt, fuel + 1 =>
    match f attempt with
    | .ok c => { outcome := .ok (some c), attempts := 1, sleeps := 0 }
    | .error e =>
      if attempt = max_retries - 1 then
        { outcome := .error e, attempts := 1, sleeps := 0 }
      else
        let t := pg_connect_go f max_retries (attempt + 1) fuel
        { outcome := t.outcome, attempts := t.attempts + 1, sleeps := t.sleeps + 1 }

/-- `AsyncPGBaseClass._connect` (`postgre/base_model.py`, lines 62-72): a
no-op when a usable connection exists, otherwise the bounded retry loop over
attempts `0 .. max_retries - 1`. -/
def pg_connect_model (existing : Option Nat) (f : Nat → Except PgError Nat)
    (max_retries : Nat) : ConnectTrace :=
  match existing with
  | some c => { outcome := .ok (some c), attempts := 0, sleeps := 0 }
  | none => pg_connect_go f max_retries 0 max_retries

/-- The key of the cache dict in `query_cache.py`: the exact
`(query, params)` pair. -/
abbrev CacheKey := String × Option (List Value)

/-- One stored cache entry: `{'value': ..., 'timestamp': ...}`. -/
structure CacheItem : Type where
  value : Value
  timestamp : Int
deriving Repr

/-- `QueryCache` (`query_cache.py`, lines 5-27): the dict is modelled as a
partial map from keys to items; `time.time()` is passed in explicitly as an
integer number of seconds. -/
structure QueryCache : Type where
  cache : CacheKey → Option CacheItem
  ttl : Int

/-- A `QueryCache` with no entries. -/
def QueryCache.empty (ttl : Int) : QueryCache :=
  { cache := fun _ => none, ttl := ttl }

/-- `QueryCache.get` (`query_cache.py`, lines 13-20): return the stored value
while `now - timestamp < ttl`; otherwise delete the entry if present and
return `None`.  The returned pair is (Python return value, cache afterwards);
a miss returns `Value.vnone` exactly as the Python function returns `None`. -/
def QueryCache.get (c : QueryCache) (now : Int) (query : String)
    (params : Option (List Value)) : Value × QueryCache :=
  let key : CacheKey := (query, params)
  match c.cache key with
  | some item =>
    if now - item.timestamp < c.ttl then
      (item.value, c)
    else
      (Value.vnone, { c with cache := fun k => if k = key then none else c.cache k })
  | none => (Value.vnone, c)

/-- `QueryCache.set` (`query_cache.py`, lines 22-24): store the value with the
current timestamp, overwriting any previous entry for the key. -/
def QueryCache.set (c : QueryCache) (now : Int) (query : String)
    (params : Option (List Value)) (v : Value) : QueryCache :=
  let key : CacheKey := (query, params)
  { c with cache := fun k =>
      if k = key then some { value := v, timestamp := now } else c.cache k }

/-- `QueryCache.clear` (`query_cache.py`, lines 26-27). -/
def QueryCache.clear (c : QueryCache) : QueryCache :=
  { c with cache := fun _ => none }

/-- The `db_config` argument of the classmethod `execute_query`: a structured
connection dict (PostgreSQL/MySQL) or a file-path string (SQLite). -/
inductive DbConfig : Type where
  | dict (fields : List (String × Value))
  | path (p : String)

/-- Python's `str.strip()`: remove leading and trailing whitespace. -/
def py_strip (s : String) : String :=
  String.mk (((s.data.dropWhile Char.isWhitespace).reverse.dropWhile
    Char.isWhitespace).reverse)

/-- Python's `str.lower()` on the character range used here. -/
def py_lower (s : String) : String :=
  String.mk (s.data.map Char.toLower)

/-- Python's `str.startswith(pre)`. -/
def py_startswith (s pre : String) : Bool :=
  List.isPrefixOf pre.data s.data

/-- The guard of `cache_query`'s wrapper:
`query.strip().lower().startswith('select')`. -/
def starts_with_select (s : String) : Bool :=
  py_startswith (py_lower (py_strip s)) "select"

/-- Observable outcome of one `execute_query` call through the `cache_query`
wrapper: the result (`error` models the `AttributeError` raised on a dict
config), the cache key consulted if any, whether the wrapped backend function
ran, and the cache afterwards. -/
structure WrapTrace : Type where
  result : Except String Value
  cache_read : Option CacheKey
  backend_called : Bool
  cache_after : QueryCache

/-- One call `cls.execute_query(db_config, table, sql)` through the
`cache_query` decorator (`query_cache.py`, lines 31-45).  Because the wrapper
is applied below `@classmethod`, its parameters bind as `self := cls`,
`query := db_config`, `args := (table, sql)`.  A dict config raises
`AttributeError` at `query.strip()`; a string config is prefix-tested in place
of the SQL text, and the cache key is `(db_config, (table, sql))`.  `backend`
is the value the undecorated `execute_query` body would return. -/
def execute_query_call (c : QueryCache) (now : Int) (cfg : DbConfig)
    (table sql : String) (backend : Value) : WrapTrace :=
  match cfg with
  | .dict _ =>
    { result := .error "AttributeError", cache_read := none,
      backend_called := false, cache_after := c }
  | .path p =>
    if starts_with_select p = false then
      { result := .ok backend, cache_read := none,
        backend_called := true, cache_after := c }
    else
      let params : Option (List Value) := some [Value.vstr table, Value.vstr sql]
      let r := c.get now p params
      if r.1 ≠ Value.vnone then
        { result := .ok r.1, cache_read := some (p, params),
          backend_called := false, cache_after := r.2 }
      else
        { result := .ok backend, cache_read := some (p, params),
          backend_called := true, cache_after := r.2.set now p params backend }

/-- The object built by `ColumnModelMySQL.__init__` when it returns (which it
never does; see the theorem for claim C10). -/
structure MySQLColumn : Type where
  data : Value
  row_name : String
  data_type : String
  primary_key : Bool
  references_table : Option BaseModel
  unique : Bool

/-- `ColumnModelMySQL.__init__` (`msql/column_model.py`, lines 6-20).  The
`hasattr(DataType, data_type.name)` guard always holds for genuine `DataType`
members and is omitted.  `CHAR`/`VARCHAR` without a length raise `ValueError`
directly; every other path calls `DataType.get_sql_type` with the dialect
string `"mysql"` (Python's `if len_data_type:` treats both `None` and `0` as
false). -/
def mysql_column_init (data : Value) (row_name : String) (dt : DataType)
    (len_data_type : Option Nat) (primary_key : Bool)
    (references_table : Option BaseModel) (unique : Bool) :
    Except String MySQLColumn :=
  if (dt = .CHAR ∨ dt = .VARCHAR) ∧ len_data_type = none then
    .error ("len_data_type must be set for the type " ++ dt.value)
  else
    let use_len : Bool :=
      match len_data_type with
      | some n => if n = 0 then false else true
      | none => false
    match (if use_len then dt.get_sql_type "mysql" len_data_type
           else dt.get_sql_type "mysql" none) with
    | .ok s =>
      .ok { data := data, row_name := row_name, data_type := s,
            primary_key := primary_key, references_table := references_table,
            unique := unique }
    | .error e => .error e

/-! ### Theorems settling the claims -/

/-- Claim C5 counterexample: on the supported dialect string `"sqlite"`,
mapping `CHAR` or `VARCHAR` with `length = None` succeeds with `"TEXT"`
instead of always failing with a configuration error, refuting the claim as
stated. -/
theorem C5_counterexample :
    DataType.CHAR.get_sql_type "sqlite" none = Except.ok "TEXT" ∧
    DataType.VARCHAR.get_sql_type "sqlite" none = Except.ok "TEXT" ∧
    (DataType.CHAR.get_sql_type "sqlite" none).isOk = true :=
  ⟨rfl, rfl, rfl⟩

/-- Claim C5 (amended): only the `"postgresql"` dialect rejects `CHAR`/`VARCHAR`
with `length = None` (with `ValueError`); `"sqlite"` maps them to `TEXT`
without error; and for every pair in the supported set, with a length supplied
whenever the PostgreSQL dialect maps `CHAR`/`VARCHAR`, `get_sql_type` is total
(returns a value).  Determinism holds because `get_sql_type` is a pure
function of its arguments. -/
theorem C5_amended (dt : DataType) (len : Option Nat) :
    ((dt = .CHAR ∨ dt = .VARCHAR) →
       (dt.get_sql_type "postgresql" none).isOk = false) ∧
    ((dt = .CHAR ∨ dt = .VARCHAR) →
       dt.get_sql_type "sqlite" none = Except.ok "TEXT") ∧
    (∀ d : String, (d = "postgresql" ∨ d = "sqlite") →
       dt ∈ supported_types_list d →
       ((dt = .CHAR ∨ dt = .VARCHAR) → len ≠ none) →
       (dt.get_sql_type d len).isOk = true) := by
  refine ⟨?_, ?_, ?_⟩
  · rintro (rfl | rfl) <;> rfl
  · rintro (rfl | rfl) <;> rfl
  · rintro d (rfl | rfl) _ hlen
    · have hno : ¬ ((dt = .CHAR ∨ dt = .VARCHAR) ∧ len = none) :=
        fun hc => (hlen hc.1) hc.2
      simp [DataType.get_sql_type, DataType.get_postgresql_type, hno, Except.isOk, Except.toBool]
    · rfl

/-- Witness for C5: the amended statement applied at concrete inputs on both
dialects, with every hypothesis discharged by computation. -/
theorem C5_witness :
    (DataType.CHAR.get_sql_type "postgresql" none).isOk = false ∧
    DataType.VARCHAR.get_sql_type "sqlite" none = Except.ok "TEXT" ∧
    (DataType.VARCHAR.get_sql_type "postgresql" (some 20)).isOk = true ∧
    (DataType.BOOLEAN.get_sql_type "sqlite" none).isOk = true := by
  refine ⟨(C5_amended .CHAR none).1 (Or.inl rfl),
          (C5_amended .VARCHAR none).2.1 (Or.inr rfl),
          (C5_amended .VARCHAR (some 20)).2.2 "postgresql" (Or.inl rfl)
            (by decide) (fun _ h => Option.noConfusion h),
          (C5_amended .BOOLEAN none).2.2 "sqlite" (Or.inr rfl)
            (by decide) (fun hcv => absurd hcv (by decide))⟩

/-- Claim C10: for every data type and every combination of constructor
arguments, `ColumnModelMySQL.__init__` raises `ValueError`: either the
`CHAR`/`VARCHAR`-without-length guard fires, or `DataType.get_sql_type` is
reached with the dialect string `"mysql"`, which it rejects as an unsupported
database type.  No MySQL column can ever be constructed. -/
theorem C10_mysql_column_always_fails (data : Value) (row_name : String)
    (dt : DataType) (len : Option Nat) (pk : Bool) (rt : Option BaseModel)
    (uq : Bool) :
    (mysql_column_init data row_name dt len pk rt uq).isOk = false := by
  rcases len with _ | n
  · cases dt <;> rfl
  · by_cases hn : n = 0
    · subst hn; cases dt <;> rfl
    · cases dt <;> simp [mysql_column_init, DataType.get_sql_type, hn, Except.isOk, Except.toBool]

/-- Claim C2 counterexample: with a driver whose first execution attempt
raises a transport error and whose second would succeed, `_execute` submits
the statement exactly once and propagates the error - it does not close,
reconnect and retry once as the claim states (which would make two attempts
and succeed). -/
theorem C2_counterexample :
    pg_execute_model (.ok ())
        (fun n => if n = 0 then .error .transport else .ok (.vint 7))
        false false =
      { result := .error .transport, attempts := 1, conn_open := false } ∧
    (1 : Nat) ≠ 2 :=
  ⟨rfl, by decide⟩

/-- Claim C2 (amended): `_execute` never retries.  Every execution error -
transport-level and SQL-semantic alike, since `except Exception` does not
distinguish them - closes the connection and propagates immediately after a
single submission, on PostgreSQL and on SQLite; a successful submission
returns after one attempt. -/
theorem C2_amended (driver : Nat → Except PgError Value) (e : PgError) :
    (driver 0 = .error e →
       pg_execute_model (.ok ()) driver false false =
         { result := .error e, attempts := 1, conn_open := false }) ∧
    (∀ commit_result,
       sqlite_execute_model (.ok ()) (.error e) commit_result =
         { result := .error e, attempts := 1, conn_open := false }) ∧
    (∀ v, driver 0 = .ok v →
       pg_execute_model (.ok ()) driver false false =
         { result := .ok v, attempts := 1, conn_open := true }) := by
  refine ⟨fun h => ?_, fun commit_result => rfl, fun v h => ?_⟩
  · simp [pg_execute_model, h]
  · simp [pg_execute_model, h]

/-- Witness for C2: the amended statement applied to concrete drivers for a
semantic error, a transport error, and a success. -/
theorem C2_witness :
    pg_execute_model (.ok ()) (fun _ => .error .semantic) false false =
      { result := .error .semantic, attempts := 1, conn_open := false } ∧
    sqlite_execute_model (.ok ()) (.error .transport) (.ok ()) =
      { result := .error .transport, attempts := 1, conn_open := false } ∧
    pg_execute_model (.ok ()) (fun _ => .ok (.vint 3)) false false =
      { result := .ok (.vint 3), attempts := 1, conn_open := true } :=
  ⟨(C2_amended (fun _ => .error .semantic) .semantic).1 rfl,
   (C2_amended (fun _ => .ok .vnone) .transport).2.1 (.ok ()),
   (C2_amended (fun _ => .ok (.vint 3)) .transport).2.2 (.vint 3) rfl⟩

/-- If every attempt in the remaining window fails, the connect loop re-raises
the error of the final attempt after consuming the whole window, sleeping
between consecutive attempts but not after the last. -/
theorem connect_go_all_fail (f : Nat → Except PgError Nat) (mr : Nat) :
    ∀ fuel attempt, attempt + fuel = mr → 0 < fuel →
      (∀ j, attempt ≤ j → j < mr → ∃ e, f j = Except.error e) →
      ∃ e, f (mr - 1) = Except.error e ∧
        pg_connect_go f mr attempt fuel =
          { outcome := .error e, attempts := fuel, sleeps := fuel - 1 } := by
  intro fuel
  induction fuel with
  | zero => intro attempt _ h0 _; exact absurd h0 (by omega)
  | succ n ih =>
    intro attempt hsum _ hfail
    obtain ⟨e, he⟩ := hfail attempt (Nat.le_refl _) (by omega)
    by_cases hn : n = 0
    · subst hn
      have hatt : attempt = mr - 1 := by omega
      subst hatt
      exact ⟨e, he, by simp [pg_connect_go, he]⟩
    · have hne : attempt ≠ mr - 1 := by omega
      obtain ⟨e', he', hgo⟩ := ih (attempt + 1) (by omega)
        (by omega) (fun j hj1 hj2 => hfail j (by omega) hj2)
      refine ⟨e', he', ?_⟩
      simp [pg_connect_go, he, hne, hgo, ConnectTrace.mk.injEq]
      omega

/-- If the attempts before `k` fail and attempt `k` succeeds inside the
window, the connect loop stops at `k` with the new connection, having made
`k - attempt + 1` attempts and slept once between consecutive attempts. -/
theorem connect_go_success (f : Nat → Except PgError Nat) (mr : Nat) :
    ∀ fuel attempt k c, attempt + fuel = mr → attempt ≤ k → k < mr →
      (∀ j, attempt ≤ j → j < k → ∃ e, f j = Except.error e) →
      f k = Except.ok c →
      pg_connect_go f mr attempt fuel =
        { outcome := .ok (some c), attempts := k - attempt + 1,
          sleeps := k - attempt } := by
  intro fuel
  induction fuel with
  | zero => intro attempt k c hsum _ hk _ _; exact absurd hk (by omega)
  | succ n ih =>
    intro attempt k c hsum hak hkmr hfail hok
    by_cases hek : attempt = k
    · subst hek
      simp [pg_connect_go, hok, Nat.sub_self]
    · have hlt : attempt < k := by omega
      obtain ⟨e, he⟩ := hfail attempt (Nat.le_refl _) hlt
      have hne : attempt ≠ mr - 1 := by omega
      have hgo := ih (attempt + 1) k c (by omega) (by omega) hkmr
        (fun j hj1 hj2 => hfail j (by omega) hj2) hok
      simp [pg_connect_go, he, hne, hgo, ConnectTrace.mk.injEq]
      omega

/-- Claim C3 counterexample: `max_retries = 2` with a connect function that
fails exactly `max_retries` times and would succeed on the next call.  The
claim says `connect()` succeeds and ends CONNECTED; the code makes exactly
`max_retries` attempts, re-raises the last driver error, and never reaches
the succeeding call. -/
theorem C3_counterexample :
    pg_connect_model none
        (fun n => if n < 2 then Except.error PgError.transport else Except.ok 0) 2 =
      { outcome := .error PgError.transport, attempts := 2, sleeps := 1 } ∧
    (fun n => if n < 2 then Except.error PgError.transport else Except.ok 0) 2 =
      Except.ok 0 :=
  ⟨rfl, rfl⟩

/-- Claim C3 (amended): with no usable connection, `_connect` makes at most
`maxRetries` driver attempts.  If all of them fail it re-raises the *last
underlying driver error* (not a wrapped `ConnectionError`) after exactly
`maxRetries` attempts with `maxRetries - 1` fixed-delay sleeps, leaving the
connection unassigned; if some attempt `k < maxRetries` succeeds after `k`
failures, it ends connected after `k + 1` attempts and `k` sleeps.  A
function that fails `maxRetries` times and then succeeds therefore makes
`connect()` fail, not succeed. -/
theorem C3_amended (f : Nat → Except PgError Nat) (mr : Nat) :
    (0 < mr → (∀ j, j < mr → ∃ e, f j = Except.error e) →
       ∃ e, f (mr - 1) = Except.error e ∧
         pg_connect_model none f mr =
           { outcome := .error e, attempts := mr, sleeps := mr - 1 }) ∧
    (∀ k c, k < mr → (∀ j, j < k → ∃ e, f j = Except.error e) →
       f k = Except.ok c →
       pg_connect_model none f mr =
         { outcome := .ok (some c), attempts := k + 1, sleeps := k }) := by
  constructor
  · intro hmr hfail
    obtain ⟨e, he, hgo⟩ := connect_go_all_fail f mr mr 0 (by omega) hmr
      (fun j _ hj => hfail j hj)
    exact ⟨e, he, by simpa [pg_connect_model] using hgo⟩
  · intro k c hk hfail hok
    have hgo := connect_go_success f mr mr 0 k c (by omega) (by omega) hk
      (fun j _ hj => hfail j hj) hok
    simpa [pg_connect_model] using hgo

/-- Witness for C3: the amended statement applied to an always-failing connect
function (`maxRetries = 3`: error after 3 attempts, 2 sleeps) and to one that
fails once and then succeeds (connected after 2 attempts, 1 sleep). -/
theorem C3_witness :
    pg_connect_model none (fun _ => Except.error PgError.transport) 3 =
      { outcome := .error PgError.transport, attempts := 3, sleeps := 2 } ∧
    pg_connect_model none
        (fun n => if n = 0 then Except.error PgError.transport else Except.ok 5) 3 =
      { outcome := .ok (some 5), attempts := 2, sleeps := 1 } := by
  constructor
  · obtain ⟨e, he, hres⟩ := (C3_amended (fun _ => Except.error PgError.transport) 3).1
      (by omega) (fun j _ => ⟨PgError.transport, rfl⟩)
    injection he with h
    subst h
    exact hres
  · exact (C3_amended _ 3).2 1 5 (by omega)
      (fun j hj => by interval_cases j; exact ⟨PgError.transport, rfl⟩) rfl

/-- Claim C4: the QueryCache contract.  (1) `set` followed by `get` at the
same instant returns the stored value (the ttl being positive, as the default
60 is); (2) once `ttl` seconds have elapsed since insertion, `get` returns
absent (`None`) and deletes the expired entry on that lookup; (3) a lookup
never returns an entry older than `ttl`: any non-`None` hit comes from a
stored entry of age strictly below `ttl`; (4) `clear` empties every entry
regardless of age. -/
theorem C4_query_cache :
    (∀ (c : QueryCache) (now : Int) (q : String) (p : Option (List Value)) (v : Value),
        0 < c.ttl → ((c.set now q p v).get now q p).1 = v) ∧
    (∀ (c : QueryCache) (t1 t2 : Int) (q : String) (p : Option (List Value)) (v : Value),
        c.ttl ≤ t2 - t1 →
          ((c.set t1 q p v).get t2 q p).1 = Value.vnone ∧
          ((c.set t1 q p v).get t2 q p).2.cache (q, p) = none) ∧
    (∀ (c : QueryCache) (now : Int) (q : String) (p : Option (List Value)),
        (c.get now q p).1 ≠ Value.vnone →
          ∃ item, c.cache (q, p) = some item ∧ now - item.timestamp < c.ttl ∧
            (c.get now q p).1 = item.value) ∧
    (∀ (c : QueryCache) (k : CacheKey), c.clear.cache k = none) := by
  refine ⟨?_, ?_, ?_, ?_⟩
  · intro c now q p v h
    simp [QueryCache.get, QueryCache.set, sub_self, h]
  · intro c t1 t2 q p v h
    have hn : ¬ (t2 - t1 < c.ttl) := not_lt.mpr h
    constructor <;> simp [QueryCache.get, QueryCache.set, hn]
  · intro c now q p h
    rcases hc : c.cache (q, p) with _ | item
    · exact absurd (by simp [QueryCache.get, hc]) h
    · by_cases ht : now - item.timestamp < c.ttl
      · exact ⟨item, rfl, ht, by simp [QueryCache.get, hc, ht]⟩
      · exact absurd (by simp [QueryCache.get, hc, ht]) h
  · intro c k
    rfl

/-- Witness for C4: the cache contract applied on a ttl-60 cache at concrete
times 0 and 60, with every hypothesis discharged by computation. -/
theorem C4_witness :
    (((QueryCache.empty 60).set 0 "SELECT 1" none (Value.vint 5)).get 0
        "SELECT 1" none).1 = Value.vint 5 ∧
    ((((QueryCache.empty 60).set 0 "q" none (Value.vint 5)).get 60 "q" none).1 =
        Value.vnone ∧
      (((QueryCache.empty 60).set 0 "q" none (Value.vint 5)).get 60 "q"
          none).2.cache ("q", none) = none) ∧
    (∃ item,
      ((QueryCache.empty 60).set 0 "q" none (Value.vint 3)).cache ("q", none) =
        some item ∧
      (0 : Int) - item.timestamp <
        ((QueryCache.empty 60).set 0 "q" none (Value.vint 3)).ttl ∧
      ((((QueryCache.empty 60).set 0 "q" none (Value.vint 3))).get 0 "q"
          none).1 = item.value) ∧
    ((QueryCache.empty 60).set 0 "q" none (Value.vint 3)).clear.cache
        ("q", none) = none :=
  ⟨C4_query_cache.1 _ 0 "SELECT 1" none (Value.vint 5) (by decide),
   C4_query_cache.2.1 _ 0 60 "q" none (Value.vint 5) (by decide),
   C4_query_cache.2.2.1 _ 0 "q" none (by decide),
   C4_query_cache.2.2.2 _ ("q", none)⟩

/-- The `save` column loop appends every column's name and prepared value, in
declaration order, to the running accumulator. -/
theorem save_scan_loop_spec (cols : List ColumnModel) :
    ∀ acc : SaveScan,
      (save_scan_loop acc cols).rows_name =
        acc.rows_name ++ cols.map ColumnModel.row_name ∧
      (save_scan_loop acc cols).rows_data =
        acc.rows_data ++ cols.map prepare_data_for_save := by
  induction cols with
  | nil => intro acc; simp [save_scan_loop]
  | cons c cs ih =>
    intro acc
    have h := ih (save_step acc c)
    have e1 : save_scan_loop acc (c :: cs) = save_scan_loop (save_step acc c) cs := rfl
    constructor
    · rw [e1, h.1]
      simp [save_step]
    · rw [e1, h.2]
      simp [save_step]

/-- Claim C1 counterexample: a two-column table (`id` primary key with no
value, `name` with a value).  The claim says the INSERT omits the primary-key
column and carries one parameter; the code's INSERT lists `id` first and
carries two parameters (`None` for `id`). -/
theorem C1_counterexample :
    pg_save "users"
        [ColumnModel.mk Value.vnone "id" "SERIAL" true false none none,
         ColumnModel.mk (Value.vstr "Alice") "name" "TEXT" false false none none] =
      SaveStmt.insert
        ("INSERT INTO users (id, name) VALUES ($1, $2) RETURNING id",
         [Value.vnone, Value.vstr "Alice"]) ∧
    (2 : Nat) ≠ 1 :=
  ⟨rfl, by decide⟩

/-- Claim C1 (amended): whenever `save` takes the INSERT path (the scanned
`id_data` is `None`, in particular whenever the primary key has no value),
the built INSERT statement includes *every* column in declaration order - the
primary-key column included, bound to `None` - and the number of parameters
equals the total number of columns, not the number of non-primary-key
columns. -/
theorem C1_amended (table : String) (cols : List ColumnModel)
    (h : (save_scan cols).id_data = Value.vnone) :
    pg_save table cols =
      SaveStmt.insert
        ("INSERT INTO " ++ table ++ " (" ++
           String.intercalate ", " (cols.map ColumnModel.row_name) ++
           ") VALUES (" ++ pg_placeholders cols.length ++ ") RETURNING id",
         cols.map prepare_data_for_save) ∧
    (cols.map prepare_data_for_save).length = cols.length ∧
    (∀ c ∈ cols, c.row_name ∈ cols.map ColumnModel.row_name) := by
  have hs := save_scan_loop_spec cols
    { id_row := none, id_data := Value.vnone, rows_name := [], rows_data := [] }
  have h1 : (save_scan cols).rows_name = cols.map ColumnModel.row_name := by
    simpa [save_scan] using hs.1
  have h2 : (save_scan cols).rows_data = cols.map prepare_data_for_save := by
    simpa [save_scan] using hs.2
  refine ⟨?_, by simp, fun c hc => List.mem_map_of_mem _ hc⟩
  simp [pg_save, pg_insert_data, h, h1, h2]

/-- Witness for C1: the amended statement applied to a one-column table whose
primary key has no value; the INSERT-path hypothesis is discharged by
computation. -/
theorem C1_witness :
    pg_save "t" [ColumnModel.mk Value.vnone "id" "SERIAL" true false none none] =
      SaveStmt.insert
        ("INSERT INTO t (" ++
           String.intercalate ", "
             ([ColumnModel.mk Value.vnone "id" "SERIAL" true false none
                 none].map ColumnModel.row_name) ++
           ") VALUES (" ++ pg_placeholders 1 ++ ") RETURNING id",
         [ColumnModel.mk Value.vnone "id" "SERIAL" true false none
             none].map prepare_data_for_save) :=
  (C1_amended "t"
    [ColumnModel.mk Value.vnone "id" "SERIAL" true false none none] rfl).1

/-- Claim C6 counterexample: `get_all_by` with zero conditions does not fail
with a validation error - it falls back to `get_all` and returns the
unconditioned SELECT - and `delete` on a model without a usable primary-key
value silently emits no statement instead of raising. -/
theorem C6_counterexample :
    pg_get_all_by "users" [] = Except.ok ("SELECT * FROM users", []) ∧
    (pg_get_all_by "users" []).isOk = true ∧
    pg_delete "users"
        [ColumnModel.mk (Value.vstr "a") "name" "TEXT" false false none none] =
      none :=
  ⟨rfl, rfl, rfl⟩

/-- Claim C6 (amended): `load_one_custom` with zero conditions raises
`ValueError` on both dialects; `get_all_by` with zero conditions does not
fail but falls back to the unconditioned `SELECT * FROM table`; `delete`
without a truthy primary-key name and non-`None` value silently emits
nothing; and every DELETE statement that is emitted carries exactly one
non-empty WHERE condition - an empty-WHERE full-table DELETE is never
built. -/
theorem C6_amended (table : String) :
    pg_load_one_custom table [] =
      Except.error "Необходимо указать хотя бы одно условие" ∧
    sqlite_load_one_custom table [] =
      Except.error "Необходимо указать хотя бы одно условие" ∧
    pg_get_all_by table [] = Except.ok ("SELECT * FROM " ++ table, []) ∧
    sqlite_get_all_by table [] = Except.ok ("SELECT * FROM " ++ table, []) ∧
    (∀ cols stmt, pg_delete table cols = some stmt →
       ∃ r d, stmt = ("DELETE FROM " ++ table ++ " WHERE " ++ r ++ " = $1", [d]) ∧
         r ≠ "") ∧
    (∀ cols stmt, sqlite_delete table cols = some stmt →
       ∃ r d, stmt = ("DELETE FROM " ++ table ++ " WHERE " ++ r ++ " = ?", [d]) ∧
         r ≠ "") := by
  refine ⟨rfl, rfl, rfl, rfl, ?_, ?_⟩
  · intro cols stmt h
    rcases hf : find_primary_key cols with _ | c
    · simp [pg_delete, hf] at h
    · simp only [pg_delete, hf, Option.map_some'] at h
      split at h
      case isTrue hcond =>
        exact ⟨c.row_name, c.data, (Option.some.inj h).symm, hcond.1⟩
      case isFalse =>
        exact Option.noConfusion h
  · intro cols stmt h
    rcases hf : find_primary_key cols with _ | c
    · simp [sqlite_delete, hf] at h
    · simp only [sqlite_delete, hf, Option.map_some'] at h
      split at h
      case isTrue hcond =>
        exact ⟨c.row_name, c.data, (Option.some.inj h).symm, hcond.1⟩
      case isFalse =>
        exact Option.noConfusion h

/-- Witness for C6: the amended statement at the table `"users"`, with the
DELETE-shape implication discharged on a concrete primary-key column. -/
theorem C6_witness :
    pg_load_one_custom "users" [] =
      Except.error "Необходимо указать хотя бы одно условие" ∧
    (∃ r d, (("DELETE FROM users WHERE id = $1", [Value.vint 1]) :
        String × List Value) =
      ("DELETE FROM " ++ "users" ++ " WHERE " ++ r ++ " = $1", [d]) ∧ r ≠ "") :=
  ⟨(C6_amended "users").1,
   (C6_amended "users").2.2.2.2.1
     [ColumnModel.mk (Value.vint 1) "id" "INTEGER" true false none none]
     ("DELETE FROM users WHERE id = $1", [Value.vint 1]) rfl⟩

/-- Claim C7 counterexample: a boolean column of the embedded dialect (SQLite
stores booleans as `INTEGER` 0/1).  Decoding a row with raw value `1` keeps
the integer `1`; it is not normalized to `true` as the claim states. -/
theorem C7_counterexample :
    sqlite_decode_row
        [ColumnModel.mk Value.vnone "active" "INTEGER" false false none none]
        [Value.vint 1] =
      Except.ok [("active", Value.vint 1)] ∧
    Value.vint 1 ≠ Value.vbool true :=
  ⟨rfl, by decide⟩

/-- Claim C7 (amended): the SQLite row decoder applies JSON decoding only to
columns whose type string is `"BLOB"`; every other column - boolean 0/1
integers included - passes its raw value through unchanged, so integer 0/1
booleans are *not* normalized to `false`/`true`. -/
theorem C7_amended (c : ColumnModel) (v : Value) (h : c.data_type ≠ "BLOB") :
    sqlite_decode_cell c v = Except.ok v ∧
    (∀ cs vs rest, sqlite_decode_row cs vs = Except.ok rest →
       sqlite_decode_row (c :: cs) (v :: vs) =
         Except.ok ((c.row_name, v) :: rest)) := by
  have hcell : sqlite_decode_cell c v = Except.ok v := by
    simp [sqlite_decode_cell, h]
  exact ⟨hcell, fun cs vs rest hrow => by simp [sqlite_decode_row, hcell, hrow]⟩

/-- Witness for C7: the amended statement applied to concrete non-BLOB
columns carrying raw 0/1 integers. -/
theorem C7_witness :
    sqlite_decode_cell
        (ColumnModel.mk Value.vnone "active" "INTEGER" false false none none)
        (Value.vint 0) = Except.ok (Value.vint 0) ∧
    sqlite_decode_row
        [ColumnModel.mk Value.vnone "flag" "BOOLEAN" false false none none]
        [Value.vint 0] =
      Except.ok [("flag", Value.vint 0)] := by
  refine ⟨(C7_amended _ (Value.vint 0) (by decide)).1, ?_⟩
  exact (C7_amended
    (ColumnModel.mk Value.vnone "flag" "BOOLEAN" false false none none)
    (Value.vint 0) (by decide)).2 [] [] [] rfl

/-- If some column references a table without a primary-key column, the
schema column loop raises `ValueError` with the fixed message. -/
theorem schema_walk_error (cols : List ColumnModel) :
    (∃ c ∈ cols, ∃ rt, c.references_table = some rt ∧
       find_primary_key rt.get_list_attributes = none) →
    schema_walk cols =
      Except.error "The reference table does not have a primary key!" := by
  induction cols with
  | nil => rintro ⟨c, hc, _⟩; exact absurd hc (List.not_mem_nil c)
  | cons c cs ih =>
    rintro ⟨c', hc', rt', href', hpk'⟩
    rcases List.mem_cons.mp hc' with rfl | hmem
    · simp [schema_walk, href', hpk']
    · have htail := ih ⟨c', hmem, rt', href', hpk'⟩
      rcases hh : c.references_table with _ | rt
      · simp [schema_walk, hh, htail]
      · rcases hp : find_primary_key rt.get_list_attributes with _ | pk
        · simp [schema_walk, hh, hp]
        · simp [schema_walk, hh, hp, htail]

/-- If every referencing column's referenced table has a primary-key column,
the schema column loop succeeds and yields exactly one column definition per
declared column, in declaration order, together with the FOREIGN KEY clauses
of the referencing columns. -/
theorem schema_walk_ok (cols : List ColumnModel) :
    (∀ c ∈ cols, ∀ rt, c.references_table = some rt →
       (find_primary_key rt.get_list_attributes).isSome = true) →
    schema_walk cols = Except.ok (cols.map column_def, cols.filterMap fk_of) := by
  induction cols with
  | nil => intro _; rfl
  | cons c cs ih =>
    intro hyp
    have htail := ih (fun c' hc' rt hrt => hyp c' (List.mem_cons_of_mem _ hc') rt hrt)
    rcases hh : c.references_table with _ | rt
    · simp [schema_walk, hh, htail, fk_of]
    · have hsome := hyp c (List.mem_cons_self _ _) rt hh
      rcases hp : find_primary_key rt.get_list_attributes with _ | pk
      · rw [hp] at hsome; exact absurd hsome (by simp)
      · simp [schema_walk, hh, hp, htail, fk_of]

/-- Claim C8: `get_schema_on_create` fails (the code's `ValueError`, the
spec's `SchemaError`) whenever some column references a table with zero
primary-key columns; when every referenced table has a primary key, the
produced DDL is the header naming the table once, followed by exactly one
definition per declared column in declaration order, followed by the
`FOREIGN KEY (col) REFERENCES table(pk)` clauses - all appended after all
column definitions. -/
theorem C8_schema (m : BaseModel) :
    ((∃ c ∈ m.get_list_attributes, ∃ rt, c.references_table = some rt ∧
        find_primary_key rt.get_list_attributes = none) →
      get_schema_on_create m =
        Except.error "The reference table does not have a primary key!") ∧
    ((∀ c ∈ m.get_list_attributes, ∀ rt, c.references_table = some rt →
        (find_primary_key rt.get_list_attributes).isSome = true) →
      get_schema_on_create m =
        Except.ok (assemble_schema m.table
          (m.get_list_attributes.map column_def)
          (m.get_list_attributes.filterMap fk_of))) := by
  constructor
  · intro hbad
    have hw := schema_walk_error m.get_list_attributes hbad
    simp [get_schema_on_create, hw]
  · intro hgood
    have hw := schema_walk_ok m.get_list_attributes hgood
    simp [get_schema_on_create, hw]

/-- Witness for C8: a column referencing a primary-key-less table makes the
schema fail, and a two-column table without references produces the assembled
DDL; both hypotheses are discharged on concrete models. -/
theorem C8_witness :
    get_schema_on_create
        (BaseModel.mk "orders"
          [ColumnModel.mk Value.vnone "user_id" "INTEGER" false false
            (some (BaseModel.mk "users"
              [ColumnModel.mk Value.vnone "name" "TEXT" false false none none]))
            none]) =
      Except.error "The reference table does not have a primary key!" ∧
    get_schema_on_create
        (BaseModel.mk "people"
          [ColumnModel.mk Value.vnone "id" "SERIAL" true false none none,
           ColumnModel.mk Value.vnone "name" "TEXT" false true none none]) =
      Except.ok (assemble_schema "people"
        ([ColumnModel.mk Value.vnone "id" "SERIAL" true false none none,
          ColumnModel.mk Value.vnone "name" "TEXT" false true none none].map
            column_def)
        ([ColumnModel.mk Value.vnone "id" "SERIAL" true false none none,
          ColumnModel.mk Value.vnone "name" "TEXT" false true none
            none].filterMap fk_of)) := by
  constructor
  · exact (C8_schema _).1 ⟨_, List.mem_singleton_self _, _, rfl, rfl⟩
  · refine (C8_schema _).2 ?_
    intro c hc rt hrt
    rcases List.mem_cons.mp hc with rfl | hc2
    · exact Option.noConfusion hrt
    · rcases List.mem_cons.mp hc2 with rfl | hc3
      · exact Option.noConfusion hrt
      · exact absurd hc3 (List.not_mem_nil _)

/-- Claim C9 counterexample to the universal part: with the SQLite path
`"select.db"` - a string config that itself passes the SELECT-prefix test -
the wrapper *does* consult the cache (with key `(db_config, (table, sql))`),
so "the cache is never consulted for any SELECT under a string path config"
fails. -/
theorem C9_counterexample :
    (execute_query_call (QueryCache.empty 60) 0 (.path "select.db") "t"
        "SELECT * FROM t" (Value.vint 1)).cache_read =
      some ("select.db", some [Value.vstr "t", Value.vstr "SELECT * FROM t"]) ∧
    starts_with_select "select.db" = true :=
  ⟨rfl, rfl⟩

/-- Claim C9 (amended): the `cache_query` wrapper binds `db_config` as its
`query` parameter, so the case-insensitive SELECT-prefix test is computed
from the config, not the SQL text.  A dict config (PostgreSQL/MySQL) raises
`AttributeError` before reaching the backend; a string path config bypasses
the cache for every SQL text - SELECTs included - *unless* the path itself
starts with "select", in which case the cache is consulted with the key
`(db_config, (table, sql))` (the SQL text enters only through the params
component). -/
theorem C9_amended (c : QueryCache) (now : Int) (table sql : String)
    (backend : Value) :
    (∀ fields, execute_query_call c now (.dict fields) table sql backend =
       { result := .error "AttributeError", cache_read := none,
         backend_called := false, cache_after := c }) ∧
    (∀ p, starts_with_select p = false →
       (execute_query_call c now (.path p) table sql backend).cache_read = none ∧
       (execute_query_call c now (.path p) table sql backend).backend_called = true ∧
       (execute_query_call c now (.path p) table sql backend).result = .ok backend) ∧
    (∀ p, starts_with_select p = true →
       (execute_query_call c now (.path p) table sql backend).cache_read =
         some (p, some [Value.vstr table, Value.vstr sql])) := by
  refine ⟨fun fields => rfl, fun p hp => ?_, fun p hp => ?_⟩
  · refine ⟨?_, ?_, ?_⟩ <;> simp [execute_query_call, hp]
  · simp [execute_query_call, hp, apply_ite]

/-- Witness for C9: the amended statement at a dict config, at the path
`"test.db"` (cache bypassed even for a SELECT), and at the path
`"select.db"` (cache consulted), hypotheses discharged by computation. -/
theorem C9_witness :
    execute_query_call (QueryCache.empty 60) 0
        (.dict [("host", Value.vstr "localhost")]) "t" "SELECT 1"
        (Value.vint 2) =
      { result := .error "AttributeError", cache_read := none,
        backend_called := false, cache_after := QueryCache.empty 60 } ∧
    ((execute_query_call (QueryCache.empty 60) 0 (.path "test.db") "t"
        "SELECT 1" (Value.vint 2)).cache_read = none ∧
     (execute_query_call (QueryCache.empty 60) 0 (.path "test.db") "t"
        "SELECT 1" (Value.vint 2)).backend_called = true ∧
     (execute_query_call (QueryCache.empty 60) 0 (.path "test.db") "t"
        "SELECT 1" (Value.vint 2)).result = .ok (Value.vint 2)) ∧
    (execute_query_call (QueryCache.empty 60) 0 (.path "select.db") "t"
        "SELECT 1" (Value.vint 2)).cache_read =
      some ("select.db", some [Value.vstr "t", Value.vstr "SELECT 1"]) :=
  ⟨(C9_amended _ 0 "t" "SELECT 1" (Value.vint 2)).1 _,
   (C9_amended _ 0 "t" "SELECT 1" (Value.vint 2)).2.1 "test.db" (by decide),
   (C9_amended _ 0 "t" "SELECT 1" (Value.vint 2)).2.2 "select.db" (by decide)⟩
